import Mathlib

/-!  Verification of the social-network API service (src/lab5/app/main.py).

The service is a set of stateless HTTP handlers over a SQLite store.  We
embed the relational store as lists of rows and each handler as a pure
function from the store (plus the request data and the values the handler
draws from the environment: fresh random salts/tokens and the current
clock) to an `Except` of an HTTP error, or a result together with the new
store.  SQLite specifics that matter here:

* AUTOINCREMENT ids are modelled by per-table counters carried in the
  state;
* the UNIQUE constraints on users.email and likes(post_id, user_id) are
  modelled by explicit membership checks; their violation is what raises
  the sqlite3.IntegrityError that the handlers translate to HTTP 400;
* ORDER BY on a TEXT column compares with SQLite's BINARY collation
  (byte order); the timestamps are ASCII ISO strings, on which byte order
  coincides with the code-point order of Lean's String order;
* foreign-key enforcement (PRAGMA foreign_keys) is a per-connection
  setting that is OFF by default in SQLite; init_db switches it on only
  for its own connection, while every handler opens a fresh connection
  via DB.connect, so the ON DELETE CASCADE clauses of the schema are not
  enforced on any handler's connection; delete_post therefore removes
  only the posts row, and the media table declares no foreign key at all.

Raising HTTPException inside the `with conn` block rolls the transaction
back (sqlite3 connection context manager), so an error response always
leaves the store unchanged; accordingly an `.error` result carries no
state.  SHA-256 is an external primitive; the model is parametrised by an
arbitrary digest function `sha256 : String → String`.
-/

namespace Social

/-- Row of the users table. -/
structure UserRow where
  id : Nat
  name : String
  email : String
  password_hash : String
  avatar_url : Option String
  created_at : String
deriving DecidableEq, Repr

/-- Row of the posts table. -/
structure PostRow where
  id : Nat
  author_id : Nat
  text : String
  image_url : Option String
  created_at : String
  updated_at : Option String
deriving DecidableEq, Repr

/-- Row of the comments table. -/
structure CommentRow where
  id : Nat
  post_id : Nat
  author_id : Nat
  text : String
  created_at : String
deriving DecidableEq, Repr

/-- Row of the likes table (UNIQUE(post_id, user_id) at the store level). -/
structure LikeRow where
  id : Nat
  post_id : Nat
  user_id : Nat
  created_at : String
deriving DecidableEq, Repr

/-- Row of the media table (owner_type is "user" or "post"; no foreign key). -/
structure MediaRow where
  id : Nat
  owner_type : String
  owner_id : Nat
  url : String
  media_type : String
  created_at : String
deriving DecidableEq, Repr

/-- Row of the sessions table (token is the primary key). -/
structure SessionRow where
  token : String
  user_id : Nat
  created_at : String
deriving DecidableEq, Repr

/-- The whole relational store, with the AUTOINCREMENT counters. -/
structure DBState where
  users : List UserRow
  posts : List PostRow
  comments : List CommentRow
  likes : List LikeRow
  media : List MediaRow
  sessions : List SessionRow
  next_user_id : Nat
  next_post_id : Nat
  next_comment_id : Nat
  next_like_id : Nat
  next_media_id : Nat
deriving DecidableEq, Repr

/-- An HTTPException response: status code and detail message. -/
structure HTTPError where
  status : Nat
  detail : String
deriving DecidableEq, Repr

/-- Response model PostOut. -/
structure PostOut where
  id : Nat
  author_id : Nat
  author_name : String
  author_avatar_url : Option String
  text : String
  image_url : Option String
  created_at : String
  updated_at : Option String
  likes_count : Nat
  comments_count : Nat
  liked_by_me : Bool
deriving DecidableEq, Repr

/-- Response model CommentOut. -/
structure CommentOut where
  id : Nat
  post_id : Nat
  author_id : Nat
  author_name : String
  author_avatar_url : Option String
  text : String
  created_at : String
deriving DecidableEq, Repr

/-- Response model PostDetailOut. -/
structure PostDetailOut where
  post : PostOut
  comments : List CommentOut
  liked_by_me : Bool
deriving DecidableEq, Repr

/-- Python's str.lower on one character, restricted to the ASCII case
mapping (the full Unicode mapping agrees with it on every email the
service normalises). -/
def lower_char (c : Char) : Char :=
  if c.toNat ≥ 65 ∧ c.toNat ≤ 90 then Char.ofNat (c.toNat + 32) else c

/-- Python's str.lower. -/
def lower (s : String) : String :=
  ⟨s.data.map lower_char⟩

/-- Python's str.strip(): drop leading and trailing whitespace. -/
def strip (s : String) : String :=
  ⟨((s.data.dropWhile Char.isWhitespace).reverse.dropWhile Char.isWhitespace).reverse⟩

/-- _hash_password: digest of salt ++ password, stored as "salt$digest". -/
def hash_password (sha256 : String → String) (password salt : String) : String :=
  salt ++ "$" ++ sha256 (salt ++ password)

/-- _verify_password: split the stored string at the first "$" to recover
the salt (no "$" raises ValueError, caught and turned into False), then
recompute and compare against the whole stored string. -/
def verify_password (sha256 : String → String) (password stored : String) : Bool :=
  if '$' ∈ stored.data then
    hash_password sha256 password ⟨stored.data.takeWhile (fun c => c != '$')⟩ == stored
  else
    false

/-- _get_user_by_token: join of sessions (by primary-key token) with users. -/
def get_user_by_token (st : DBState) (token : String) : Option UserRow :=
  match st.sessions.find? (fun s => s.token == token) with
  | none => none
  | some s => st.users.find? (fun u => u.id == s.user_id)

/-- register handler body (the pydantic validation of RegisterIn happens
before the handler is entered).  `salt`, `token` and `created_at` stand for
the values drawn from secrets.token_hex, _create_token and _now_iso.  The
users INSERT hits the UNIQUE constraint on email when a row with exactly
the lowercased email exists → caught IntegrityError → 400; the sessions
INSERT can hit the token primary key, whose IntegrityError is NOT caught
(500), and the transaction rolls back. -/
def register (sha256 : String → String) (st : DBState)
    (name email password salt token created_at : String) :
    Except HTTPError (String × DBState) :=
  if st.users.any (fun u => u.email == lower email) then
    .error ⟨400, "Email уже используется"⟩
  else if st.sessions.any (fun s => s.token == token) then
    .error ⟨500, "Internal Server Error"⟩
  else
    let user_id := st.next_user_id
    .ok (token,
      { st with
          users := st.users ++
            [⟨user_id, name, lower email, hash_password sha256 password salt, none, created_at⟩],
          sessions := st.sessions ++ [⟨token, user_id, created_at⟩],
          next_user_id := user_id + 1 })

/-- The generic credential error of the login handler: a single raise
site serves both the missing-user and the wrong-password case. -/
def invalid_credentials : HTTPError :=
  ⟨400, "Неверный email или пароль"⟩

/-- login handler body.  `token` and `created_at` stand for the fresh
session token and _now_iso.  Lookup is by exactly the lowercased email
(the unique email column makes fetchone unambiguous). -/
def login (sha256 : String → String) (st : DBState)
    (email password token created_at : String) :
    Except HTTPError (String × DBState) :=
  match st.users.find? (fun u => u.email == lower email) with
  | none => .error invalid_credentials
  | some u =>
      if verify_password sha256 password u.password_hash then
        if st.sessions.any (fun s => s.token == token) then
          .error ⟨500, "Internal Server Error"⟩
        else
          .ok (token, { st with sessions := st.sessions ++ [⟨token, u.id, created_at⟩] })
      else
        .error invalid_credentials

/-- One joined row of the feed / post queries: posts JOIN users plus the
correlated COUNT subqueries, and liked_by_me from the optional viewer
(the anonymous query selects the constant 0 there). -/
def post_row_out (st : DBState) (viewer : Option UserRow) (p : PostRow) : Option PostOut :=
  match st.users.find? (fun u => u.id == p.author_id) with
  | none => none
  | some u =>
      some
        { id := p.id
          author_id := p.author_id
          author_name := u.name
          author_avatar_url := u.avatar_url
          text := p.text
          image_url := p.image_url
          created_at := p.created_at
          updated_at := p.updated_at
          likes_count := (st.likes.filter (fun l => l.post_id == p.id)).length
          comments_count := (st.comments.filter (fun c => c.post_id == p.id)).length
          liked_by_me :=
            match viewer with
            | some v => st.likes.any (fun l => l.post_id == p.id && l.user_id == v.id)
            | none => false }

/-- The comparator of ORDER BY created_at DESC (BINARY collation on an
ASCII ISO timestamp = code-point order). -/
def created_desc (a b : PostRow) : Bool :=
  decide (b.created_at ≤ a.created_at)

/-- feed handler.  `token` is the bearer token already stripped from the
Authorization header ("" when the header is absent).  limit is clamped to
[1, 50] (the route default is 20), offset to ≥ 0; rows are the join
ordered by created_at descending with OFFSET/LIMIT applied after the
ordering. -/
def feed (st : DBState) (limit offset : Int) (token : String) : List PostOut :=
  let lim := max 1 (min limit 50)
  let off := max 0 offset
  let viewer := if token == "" then none else get_user_by_token st token
  (((st.posts.mergeSort created_desc).filterMap (post_row_out st viewer)).drop off.toNat).take
    lim.toNat

/-- _get_post_out: single-post hydration query; 404 when the join returns
no row (post absent); liked_by_me is left at its default False. -/
def get_post_out (st : DBState) (post_id : Nat) : Except HTTPError PostOut :=
  match st.posts.find? (fun p => p.id == post_id) with
  | none => .error ⟨404, "Пост не найден"⟩
  | some p =>
      match post_row_out st none p with
      | none => .error ⟨404, "Пост не найден"⟩
      | some out => .ok out

/-- One joined row of the comments query of get_post. -/
def comment_row_out (st : DBState) (c : CommentRow) : Option CommentOut :=
  match st.users.find? (fun u => u.id == c.author_id) with
  | none => none
  | some u => some ⟨c.id, c.post_id, c.author_id, u.name, u.avatar_url, c.text, c.created_at⟩

/-- The comparator of ORDER BY created_at ASC for comments. -/
def created_asc (a b : CommentRow) : Bool :=
  decide (a.created_at ≤ b.created_at)

/-- get_post handler: _get_post_out, then the comments of the post joined
with users and ordered by created_at ascending, then liked_by_me computed
only when the token is non-empty and resolves. -/
def get_post (st : DBState) (post_id : Nat) (token : String) :
    Except HTTPError PostDetailOut :=
  match get_post_out st post_id with
  | .error e => .error e
  | .ok post =>
      let comment_list :=
        ((st.comments.filter (fun c => c.post_id == post_id)).mergeSort created_asc).filterMap
          (comment_row_out st)
      let liked_by_me :=
        if token == "" then false
        else
          match get_user_by_token st token with
          | none => false
          | some u => st.likes.any (fun l => l.post_id == post_id && l.user_id == u.id)
      .ok ⟨post, comment_list, liked_by_me⟩

/-- update_post handler.  `user` is the row _require_user resolved;
`image` is the URL _save_upload returns when a new file is attached
(None when no file is attached); `now` stands for _now_iso.  Empty text
after trimming is rejected before the post is even looked up. -/
def update_post (st : DBState) (user : UserRow) (post_id : Nat) (text : String)
    (image : Option String) (remove_image : Bool) (now : String) :
    Except HTTPError (PostOut × DBState) :=
  if strip text == "" then
    .error ⟨400, "Текст поста обязателен"⟩
  else
    match st.posts.find? (fun p => p.id == post_id) with
    | none => .error ⟨404, "Пост не найден"⟩
    | some post =>
        if post.author_id != user.id then
          .error ⟨403, "Нет доступа"⟩
        else
          let image_url : Option String :=
            match image with
            | some url => some url
            | none => if remove_image then none else post.image_url
          let st₁ : DBState :=
            match image with
            | some url =>
                { st with
                    media := st.media ++ [⟨st.next_media_id, "post", post_id, url, "image", now⟩],
                    next_media_id := st.next_media_id + 1 }
            | none => st
          let st₂ :=
            { st₁ with
                posts := st₁.posts.map (fun p =>
                  if p.id == post_id then
                    { p with text := strip text, image_url := image_url, updated_at := some now }
                  else p) }
          match get_post_out st₂ post_id with
          | .error e => .error e
          | .ok out => .ok (out, st₂)

/-- delete_post handler.  The DELETE runs on a fresh connection where
PRAGMA foreign_keys is at its SQLite default OFF, so the ON DELETE
CASCADE clauses of comments/likes/sessions are not enforced, and the
media table has no foreign key: only the posts row goes away. -/
def delete_post (st : DBState) (user : UserRow) (post_id : Nat) :
    Except HTTPError DBState :=
  match st.posts.find? (fun p => p.id == post_id) with
  | none => .error ⟨404, "Пост не найден"⟩
  | some post =>
      if post.author_id != user.id then
        .error ⟨403, "Нет доступа"⟩
      else
        .ok { st with posts := st.posts.filter (fun p => !(p.id == post_id)) }

/-- like_post handler.  The INSERT hits UNIQUE(post_id, user_id) exactly
when such a like row already exists → caught IntegrityError → 400. -/
def like_post (st : DBState) (user : UserRow) (post_id : Nat) (now : String) :
    Except HTTPError DBState :=
  match st.posts.find? (fun p => p.id == post_id) with
  | none => .error ⟨404, "Пост не найден"⟩
  | some _ =>
      if st.likes.any (fun l => l.post_id == post_id && l.user_id == user.id) then
        .error ⟨400, "Лайк уже поставлен"⟩
      else
        .ok { st with
                likes := st.likes ++ [⟨st.next_like_id, post_id, user.id, now⟩],
                next_like_id := st.next_like_id + 1 }

/-- unlike_post handler: an unconditional DELETE (no post lookup, no
row-present check); the handler always answers with the ok status. -/
def unlike_post (st : DBState) (user : UserRow) (post_id : Nat) : DBState :=
  { st with
      likes := st.likes.filter (fun l => !(l.post_id == post_id && l.user_id == user.id)) }

/-- Fixture: user 1. -/
def alice : UserRow :=
  ⟨1, "Alice", "alice@example.com", "ab$zzz", none, "2024-01-01T00:00:00Z"⟩

/-- Fixture: user 2. -/
def bob : UserRow :=
  ⟨2, "Bob", "bob@example.com", "cd$www", none, "2024-01-02T00:00:00Z"⟩

/-- Fixture: post 1, authored by user 1, with an image. -/
def post1 : PostRow :=
  ⟨1, 1, "hello", some "/uploads/p1.png", "2024-01-03T00:00:00Z", none⟩

/-- Fixture: comment 1 on post 1, by user 2. -/
def comment1 : CommentRow :=
  ⟨1, 1, 2, "hi", "2024-01-04T00:00:00Z"⟩

/-- Fixture: like of post 1 by user 2. -/
def like1 : LikeRow :=
  ⟨1, 1, 2, "2024-01-05T00:00:00Z"⟩

/-- Fixture: the media audit row of post 1's image. -/
def media1 : MediaRow :=
  ⟨1, "post", 1, "/uploads/p1.png", "image", "2024-01-03T00:00:00Z"⟩

/-- Fixture: a concrete store reachable through the API: two users with
their sessions, one post by user 1 carrying one comment, one like by
user 2 and one media audit row. -/
def ex_st : DBState :=
  ⟨[alice, bob], [post1], [comment1], [like1], [media1],
    [⟨"tokA", 1, "2024-01-01T00:00:00Z"⟩, ⟨"tokB", 2, "2024-01-02T00:00:00Z"⟩],
    3, 2, 2, 2, 2⟩

/-- C1: the claim says delete_post removes every dependent comment, like
and media row.  On the code it does not: handler connections never turn
PRAGMA foreign_keys on (a per-connection SQLite setting, OFF by
default), so the ON DELETE CASCADE clauses declared by init_db are not
enforced, and the media table has no foreign key at all.  At the
concrete store, the author's delete_post succeeds, the post is gone, yet
the dependent comment, like and media rows all survive. -/
theorem C1_delete_post_leaves_dependents :
    ∃ st', delete_post ex_st alice 1 = .ok st' ∧
      st'.posts.find? (fun p => p.id == 1) = none ∧
      st'.comments.filter (fun c => c.post_id == 1) = [comment1] ∧
      st'.likes.filter (fun l => l.post_id == 1) = [like1] ∧
      st'.media.filter (fun m => m.owner_type == "post" && m.owner_id == 1) = [media1] := by
  refine ⟨_, rfl, ?_, ?_, ?_, ?_⟩ <;> decide

/-- C10: text that is empty after trimming makes update_post answer the
validation error before the post is looked up — for every store, every
post id (present or absent, owned or not) and every image argument — and
no new state is produced. -/
theorem C10_update_post_validates_text_first (st : DBState) (user : UserRow) (post_id : Nat)
    (text : String) (image : Option String) (remove_image : Bool) (now : String)
    (htext : strip text = "") :
    update_post st user post_id text image remove_image now =
      .error ⟨400, "Текст поста обязателен"⟩ := by
  simp [update_post, htext]

/-- Witness for C10 at a store where post 99 does not exist and the
caller is not the author of anything. -/
theorem C10_witness :
    update_post ex_st bob 99 "   " none false "t" = .error ⟨400, "Текст поста обязателен"⟩ :=
  C10_update_post_validates_text_first ex_st bob 99 "   " none false "t" (by decide)

/-- C6: with well-formed text, update_post and delete_post both answer
404 when no post row has the id, and both answer 403 when the post
exists but its author_id differs from the caller's id; an error response
carries no new state, so the store (in particular the post) is
unchanged, and only the author's call can reach the success branch. -/
theorem C6_owner_only_update_delete (st : DBState) (user : UserRow) (post_id : Nat)
    (text : String) (image : Option String) (remove_image : Bool) (now : String)
    (htext : strip text ≠ "") :
    (st.posts.find? (fun p => p.id == post_id) = none →
      update_post st user post_id text image remove_image now = .error ⟨404, "Пост не найден"⟩ ∧
      delete_post st user post_id = .error ⟨404, "Пост не найден"⟩) ∧
    (∀ post, st.posts.find? (fun p => p.id == post_id) = some post →
      post.author_id ≠ user.id →
      update_post st user post_id text image remove_image now = .error ⟨403, "Нет доступа"⟩ ∧
      delete_post st user post_id = .error ⟨403, "Нет доступа"⟩) := by
  have hbeq : (strip text == "") = false := by simpa using htext
  constructor
  · intro hnone
    constructor
    · simp [update_post, hbeq, hnone]
    · simp [delete_post, hnone]
  · intro post hfind hne
    have hbne : (post.author_id != user.id) = true := by simpa using hne
    constructor
    · simp [update_post, hbeq, hfind, hbne]
    · simp [delete_post, hfind, hbne]

/-- Witness for C6: user 2 tries to edit and to delete user 1's post. -/
theorem C6_witness :
    update_post ex_st bob 1 "x" none false "t" = .error ⟨403, "Нет доступа"⟩ ∧
    delete_post ex_st bob 1 = .error ⟨403, "Нет доступа"⟩ :=
  (C6_owner_only_update_delete ex_st bob 1 "x" none false "t" (by decide)).2 post1
    (by decide) (by decide)

/-- C5: when some user row already holds exactly the lowercase-normalised
email, register answers DuplicateEmail for every name and every
password, and produces no new state — in particular no new user row. -/
theorem C5_duplicate_email (sha256 : String → String) (st : DBState)
    (name email password salt token created_at : String)
    (hdup : st.users.any (fun u => u.email == lower email) = true) :
    register sha256 st name email password salt token created_at =
      .error ⟨400, "Email уже используется"⟩ := by
  simp [register, hdup]

/-- Witness for C5: re-registration of user 1's email in mixed case. -/
theorem C5_witness :
    register (fun s => s) ex_st "Mallory" "Alice@Example.COM" "hunter22" "s" "t" "c" =
      .error ⟨400, "Email уже используется"⟩ :=
  C5_duplicate_email (fun s => s) ex_st "Mallory" "Alice@Example.COM" "hunter22" "s" "t" "c"
    (by decide)

/-- C8: a login whose email matches no user row and a login whose email
matches a user but whose password fails verification answer the one
generic invalid_credentials error — identical status and identical
message, revealing nothing about which field was wrong. -/
theorem C8_login_generic_error (sha1 sha2 : String → String) (st1 st2 : DBState)
    (email1 password1 token1 ca1 email2 password2 token2 ca2 : String) (u : UserRow)
    (h1 : st1.users.find? (fun v => v.email == lower email1) = none)
    (h2 : st2.users.find? (fun v => v.email == lower email2) = some u)
    (h3 : verify_password sha2 password2 u.password_hash = false) :
    login sha1 st1 email1 password1 token1 ca1 = .error invalid_credentials ∧
    login sha2 st2 email2 password2 token2 ca2 = .error invalid_credentials := by
  constructor
  · simp [login, h1]
  · simp [login, h2, h3]

/-- Witness for C8: unknown email vs. user 1's email with a wrong
password, on the same store. -/
theorem C8_witness :
    login (fun s => s) ex_st "nobody@example.com" "pw" "t1" "c1" = .error invalid_credentials ∧
    login (fun s => s) ex_st "alice@example.com" "wrong" "t2" "c2" = .error invalid_credentials :=
  C8_login_generic_error (fun s => s) (fun s => s) ex_st ex_st "nobody@example.com" "pw" "t1"
    "c1" "alice@example.com" "wrong" "t2" "c2" alice (by decide) (by decide) (by decide)

/-- C2: a registration that passes the duplicate-email check, with a
fresh session token and the fresh AUTOINCREMENT user id, succeeds and
returns its token, and afterwards the session lookup of that token
yields exactly the user row the registration created. -/
theorem C2_register_token_resolves (sha256 : String → String) (st : DBState)
    (name email password salt token created_at : String)
    (hdup : st.users.any (fun u => u.email == lower email) = false)
    (htok : st.sessions.any (fun s => s.token == token) = false)
    (hid : st.users.any (fun u => u.id == st.next_user_id) = false) :
    ∃ st',
      register sha256 st name email password salt token created_at = .ok (token, st') ∧
      get_user_by_token st' token =
        some ⟨st.next_user_id, name, lower email,
          hash_password sha256 password salt, none, created_at⟩ := by
  refine ⟨{ st with
      users := st.users ++
        [⟨st.next_user_id, name, lower email, hash_password sha256 password salt, none,
          created_at⟩],
      sessions := st.sessions ++ [⟨token, st.next_user_id, created_at⟩],
      next_user_id := st.next_user_id + 1 }, ?_, ?_⟩
  · simp [register, hdup, htok]
  · have hs : st.sessions.find? (fun s => s.token == token) = none :=
      List.find?_eq_none.mpr (fun x hx => by
        have h := List.any_eq_false.mp htok x hx
        simpa using h)
    have hu : st.users.find? (fun u => u.id == st.next_user_id) = none :=
      List.find?_eq_none.mpr (fun x hx => by
        have h := List.any_eq_false.mp hid x hx
        simpa using h)
    simp [get_user_by_token, List.find?_append, hs, hu]

/-- Witness for C2: a fresh registration on the concrete store resolves
to the created user row. -/
theorem C2_witness :
    ∃ st',
      register (fun s => s) ex_st "Carol" "Carol@New.com" "secret1" "ef" "tokC" "c" =
        .ok ("tokC", st') ∧
      get_user_by_token st' "tokC" =
        some ⟨ex_st.next_user_id, "Carol", lower "Carol@New.com",
          hash_password (fun s => s) "secret1" "ef", none, "c"⟩ :=
  C2_register_token_resolves (fun s => s) ex_st "Carol" "Carol@New.com" "secret1" "ef" "tokC"
    "c" (by decide) (by decide) (by decide)

/-- C3: on an existing post and a user with no like row on it yet, the
first like_post succeeds, a second like_post on the resulting store
answers AlreadyLiked, while unlike_post (which has no error path at all)
removes the row when it is present and, run again on the store that no
longer holds the row, succeeds leaving the store exactly as it was. -/
theorem C3_like_twice_unlike_twice (st : DBState) (user : UserRow) (post_id : Nat)
    (now now' : String) (post : PostRow)
    (hpost : st.posts.find? (fun p => p.id == post_id) = some post)
    (hnolike : st.likes.any (fun l => l.post_id == post_id && l.user_id == user.id) = false) :
    ∃ st₁,
      like_post st user post_id now = .ok st₁ ∧
      like_post st₁ user post_id now' = .error ⟨400, "Лайк уже поставлен"⟩ ∧
      (unlike_post st₁ user post_id).likes.any
          (fun l => l.post_id == post_id && l.user_id == user.id) = false ∧
      unlike_post (unlike_post st₁ user post_id) user post_id = unlike_post st₁ user post_id := by
  refine ⟨{ st with
      likes := st.likes ++ [⟨st.next_like_id, post_id, user.id, now⟩],
      next_like_id := st.next_like_id + 1 }, ?_, ?_, ?_, ?_⟩
  · simp [like_post, hpost, hnolike]
  · simp [like_post, hpost, List.any_append]
  · simp only [unlike_post, List.any_eq_false, List.mem_filter]
    intro l hl
    have h := hl.2
    simp only [Bool.not_eq_true'] at h
    simp [h]
  · simp [unlike_post, List.filter_filter]

/-- Witness for C3: user 1 (who has not liked post 1) likes it, likes it
again, then unlikes it twice. -/
theorem C3_witness :
    ∃ st₁,
      like_post ex_st alice 1 "t1" = .ok st₁ ∧
      like_post st₁ alice 1 "t2" = .error ⟨400, "Лайк уже поставлен"⟩ ∧
      (unlike_post st₁ alice 1).likes.any
          (fun l => l.post_id == 1 && l.user_id == alice.id) = false ∧
      unlike_post (unlike_post st₁ alice 1) alice 1 = unlike_post st₁ alice 1 :=
  C3_like_twice_unlike_twice ex_st alice 1 "t1" "t2" post1 (by decide) (by decide)

/-- C7: a successful update by the author re-stamps updated_at with the
current time and sets the stored image URL to the newly stored URL when
a new image is supplied, to absent when only remove_image is set, and
leaves it unchanged otherwise (the text is also replaced by its trimmed
form, as the handler writes). -/
theorem C7_update_post_image_and_timestamp (st : DBState) (user : UserRow) (post_id : Nat)
    (text : String) (image : Option String) (remove_image : Bool) (now : String)
    (post : PostRow) (author : UserRow)
    (htext : strip text ≠ "")
    (hfind : st.posts.find? (fun p => p.id == post_id) = some post)
    (hown : post.author_id = user.id)
    (hauthor : st.users.find? (fun u => u.id == post.author_id) = some author) :
    ∃ out st₂,
      update_post st user post_id text image remove_image now = .ok (out, st₂) ∧
      st₂.posts.find? (fun p => p.id == post_id) =
        some { post with
                 text := strip text,
                 image_url :=
                   match image with
                   | some url => some url
                   | none => if remove_image then none else post.image_url,
                 updated_at := some now } := by
  have hbeq : (strip text == "") = false := by simpa using htext
  have hpid : (post.id == post_id) = true := by
    have h := List.find?_some hfind
    simpa using h
  have hbne : (post.author_id != user.id) = false := by simp [hown]
  have hmap : ∀ (img_url : Option String),
      (st.posts.map (fun p =>
          if p.id == post_id then
            { p with text := strip text, image_url := img_url, updated_at := some now }
          else p)).find? (fun p => p.id == post_id) =
        some { post with text := strip text, image_url := img_url, updated_at := some now } := by
    intro img_url
    rw [List.find?_map]
    have hcomp : ((fun p : PostRow => p.id == post_id) ∘ fun p =>
        if p.id == post_id then
          { p with text := strip text, image_url := img_url, updated_at := some now }
        else p) = fun p : PostRow => p.id == post_id := by
      funext p
      by_cases h : p.id = post_id <;> simp [h]
    rw [hcomp, hfind]
    have hpid' : post.id = post_id := by simpa using hpid
    simp [hpid']
  rcases image with _ | url
  · exact
      ⟨{ id := post.id, author_id := post.author_id, author_name := author.name,
          author_avatar_url := author.avatar_url, text := strip text,
          image_url := if remove_image then none else post.image_url,
          created_at := post.created_at, updated_at := some now,
          likes_count := (st.likes.filter (fun l => l.post_id == post.id)).length,
          comments_count := (st.comments.filter (fun c => c.post_id == post.id)).length,
          liked_by_me := false },
        { st with posts := st.posts.map (fun p =>
            if p.id == post_id then
              { p with
                  text := strip text
                  image_url := if remove_image then none else post.image_url
                  updated_at := some now }
            else p) },
      by simp only [update_post, hbeq, Bool.false_eq_true, if_false, reduceIte, hfind, hbne,
          get_post_out, post_row_out, hmap, hauthor],
      hmap _⟩
  · exact
      ⟨{ id := post.id, author_id := post.author_id, author_name := author.name,
          author_avatar_url := author.avatar_url, text := strip text,
          image_url := some url,
          created_at := post.created_at, updated_at := some now,
          likes_count := (st.likes.filter (fun l => l.post_id == post.id)).length,
          comments_count := (st.comments.filter (fun c => c.post_id == post.id)).length,
          liked_by_me := false },
        { st with
            media := st.media ++ [⟨st.next_media_id, "post", post_id, url, "image", now⟩],
            next_media_id := st.next_media_id + 1,
            posts := st.posts.map (fun p =>
              if p.id == post_id then
                { p with text := strip text, image_url := some url, updated_at := some now }
              else p) },
      by simp only [update_post, hbeq, Bool.false_eq_true, if_false, reduceIte, hfind, hbne,
          get_post_out, post_row_out, hmap, hauthor],
      hmap _⟩

/-- Witness for C7: the author edits post 1 removing its image. -/
theorem C7_witness :
    ∃ out st₂,
      update_post ex_st alice 1 "edited" none true "t9" = .ok (out, st₂) ∧
      st₂.posts.find? (fun p => p.id == 1) =
        some { post1 with text := strip "edited", image_url := none, updated_at := some "t9" } :=
  C7_update_post_image_and_timestamp ex_st alice 1 "edited" none true "t9" post1 alice
    (by decide) (by decide) (by decide) (by decide)

/-- A feed row copies its created_at from the underlying post row. -/
theorem post_row_out_created_at (st : DBState) (viewer : Option UserRow) (p : PostRow)
    (out : PostOut) (h : post_row_out st viewer p = some out) : out.created_at = p.created_at := by
  unfold post_row_out at h
  cases hf : st.users.find? (fun u => u.id == p.author_id) with
  | none => rw [hf] at h; cases h
  | some u => rw [hf] at h; cases h; rfl

/-- A feed row built for the anonymous viewer has liked_by_me = false
(the anonymous SQL variant selects the constant 0). -/
theorem post_row_out_anonymous (st : DBState) (p : PostRow) (out : PostOut)
    (h : post_row_out st none p = some out) : out.liked_by_me = false := by
  unfold post_row_out at h
  cases hf : st.users.find? (fun u => u.id == p.author_id) with
  | none => rw [hf] at h; cases h
  | some u => rw [hf] at h; cases h; rfl

/-- C4: feed computes with limit clamped into [1, 50] and offset clamped
to ≥ 0 (the call equals the call at the clamped arguments; the route
default is limit 20), returns at most the clamped limit of rows, in
created_at-descending order, and when the token is empty (header absent)
or does not resolve to a session, every returned row has
liked_by_me = false. -/
theorem C4_feed_clamp_order_anonymous (st : DBState) (limit offset : Int) (token : String) :
    (feed st limit offset token).length ≤ (max 1 (min limit 50)).toNat ∧
    feed st limit offset token = feed st (max 1 (min limit 50)) (max 0 offset) token ∧
    (feed st limit offset token).Pairwise (fun a b => b.created_at ≤ a.created_at) ∧
    ((token = "" ∨ get_user_by_token st token = none) →
      ∀ r ∈ feed st limit offset token, r.liked_by_me = false) := by
  refine ⟨?_, ?_, ?_, ?_⟩
  · simp only [feed]
    exact List.length_take_le _ _
  · have h1 : max 1 (min (max 1 (min limit 50)) 50) = max 1 (min limit 50) := by omega
    have h2 : max 0 (max 0 offset) = max 0 offset := by omega
    simp only [feed, h1, h2]
  · have htrans : ∀ a b c : PostRow, created_desc a b = true → created_desc b c = true →
        created_desc a c = true := by
      intro a b c hab hbc
      simp only [created_desc, decide_eq_true_eq] at hab hbc ⊢
      exact le_trans hbc hab
    have htotal : ∀ a b : PostRow, (created_desc a b || created_desc b a) = true := by
      intro a b
      simp only [created_desc, Bool.or_eq_true, decide_eq_true_eq]
      exact le_total b.created_at a.created_at
    have hsorted := List.sorted_mergeSort htrans htotal st.posts
    have hsorted₂ : ((st.posts.mergeSort created_desc).filterMap
        (post_row_out st (if token == "" then none else get_user_by_token st token))).Pairwise
        (fun a b => b.created_at ≤ a.created_at) := by
      rw [List.pairwise_filterMap]
      refine List.Pairwise.imp ?_ hsorted
      intro a b hab x hx y hy
      rw [post_row_out_created_at st _ a x hx, post_row_out_created_at st _ b y hy]
      simpa [created_desc] using hab
    simp only [feed]
    exact List.Pairwise.sublist
      ((List.take_sublist _ _).trans (List.drop_sublist _ _)) hsorted₂
  · intro h r hr
    have hv : (if token == "" then none else get_user_by_token st token) = none := by
      rcases h with h | h
      · simp [h]
      · simp [h]
    simp only [feed, hv] at hr
    have hr₂ : r ∈ (st.posts.mergeSort created_desc).filterMap (post_row_out st none) :=
      List.mem_of_mem_drop (List.mem_of_mem_take hr)
    obtain ⟨p, _, hpr⟩ := List.mem_filterMap.mp hr₂
    exact post_row_out_anonymous st p r hpr

/-- Witness for C4 at the concrete store, the default limit and an
absent token. -/
theorem C4_witness :
    (feed ex_st 20 0 "").length ≤ (max 1 (min (20 : Int) 50)).toNat ∧
    feed ex_st 20 0 "" = feed ex_st (max 1 (min (20 : Int) 50)) (max (0 : Int) 0) "" ∧
    (feed ex_st 20 0 "").Pairwise (fun a b => b.created_at ≤ a.created_at) ∧
    ((("" : String) = "" ∨ get_user_by_token ex_st "" = none) →
      ∀ r ∈ feed ex_st 20 0 "", r.liked_by_me = false) :=
  C4_feed_clamp_order_anonymous ex_st 20 0 ""

/-- A comment view copies its created_at from the underlying row. -/
theorem comment_row_out_created_at (st : DBState) (c : CommentRow) (out : CommentOut)
    (h : comment_row_out st c = some out) : out.created_at = c.created_at := by
  unfold comment_row_out at h
  cases hf : st.users.find? (fun u => u.id == c.author_id) with
  | none => rw [hf] at h; cases h
  | some u => rw [hf] at h; cases h; rfl

/-- C9: get_post answers 404 when no post row has the id; on a present
post (with its author row present, as every post created through the API
has) it returns the hydrated detail whose comment list consists of the
post's comments in created_at-ascending order, and whose liked_by_me is
true exactly when the token is non-empty, resolves to a session's user,
and a like row of that user on the post exists — so it is false for an
absent, empty or unresolvable token. -/
theorem C9_get_post_detail (st : DBState) (post_id : Nat) (token : String) :
    (st.posts.find? (fun p => p.id == post_id) = none →
      get_post st post_id token = .error ⟨404, "Пост не найден"⟩) ∧
    (∀ post author, st.posts.find? (fun p => p.id == post_id) = some post →
      st.users.find? (fun u => u.id == post.author_id) = some author →
      ∃ d, get_post st post_id token = .ok d ∧
        d.comments.Pairwise (fun a b => a.created_at ≤ b.created_at) ∧
        d.comments.Perm
          ((st.comments.filter (fun c => c.post_id == post_id)).filterMap
            (comment_row_out st)) ∧
        (d.liked_by_me = true ↔
          token ≠ "" ∧ ∃ u, get_user_by_token st token = some u ∧
            st.likes.any (fun l => l.post_id == post_id && l.user_id == u.id) = true)) := by
  constructor
  · intro hnone
    have hg : get_post_out st post_id = .error ⟨404, "Пост не найден"⟩ := by
      simp only [get_post_out, hnone]
    simp only [get_post, hg]
  · intro post author hfind hauthor
    have hpro : post_row_out st none post =
        some
          { id := post.id
            author_id := post.author_id
            author_name := author.name
            author_avatar_url := author.avatar_url
            text := post.text
            image_url := post.image_url
            created_at := post.created_at
            updated_at := post.updated_at
            likes_count := (st.likes.filter (fun l => l.post_id == post.id)).length
            comments_count := (st.comments.filter (fun c => c.post_id == post.id)).length
            liked_by_me := false } := by
      simp [post_row_out, hauthor]
    have hg : get_post_out st post_id = .ok
        { id := post.id
          author_id := post.author_id
          author_name := author.name
          author_avatar_url := author.avatar_url
          text := post.text
          image_url := post.image_url
          created_at := post.created_at
          updated_at := post.updated_at
          likes_count := (st.likes.filter (fun l => l.post_id == post.id)).length
          comments_count := (st.comments.filter (fun c => c.post_id == post.id)).length
          liked_by_me := false } := by
      simp only [get_post_out, hfind, hpro]
    refine
      ⟨{ post :=
          { id := post.id
            author_id := post.author_id
            author_name := author.name
            author_avatar_url := author.avatar_url
            text := post.text
            image_url := post.image_url
            created_at := post.created_at
            updated_at := post.updated_at
            likes_count := (st.likes.filter (fun l => l.post_id == post.id)).length
            comments_count := (st.comments.filter (fun c => c.post_id == post.id)).length
            liked_by_me := false }
         comments :=
          ((st.comments.filter (fun c => c.post_id == post_id)).mergeSort
            created_asc).filterMap (comment_row_out st)
         liked_by_me :=
          if token == "" then false
          else
            match get_user_by_token st token with
            | none => false
            | some u => st.likes.any (fun l => l.post_id == post_id && l.user_id == u.id) },
        ?_, ?_, ?_, ?_⟩
    · simp only [get_post, hg]
    · have htrans : ∀ a b c : CommentRow, created_asc a b = true → created_asc b c = true →
          created_asc a c = true := by
        intro a b c hab hbc
        simp only [created_asc, decide_eq_true_eq] at hab hbc ⊢
        exact le_trans hab hbc
      have htotal : ∀ a b : CommentRow, (created_asc a b || created_asc b a) = true := by
        intro a b
        simp only [created_asc, Bool.or_eq_true, decide_eq_true_eq]
        exact le_total a.created_at b.created_at
      have hsorted := List.sorted_mergeSort htrans htotal
        (st.comments.filter (fun c => c.post_id == post_id))
      rw [List.pairwise_filterMap]
      refine List.Pairwise.imp ?_ hsorted
      intro a b hab x hx y hy
      rw [comment_row_out_created_at st a x hx, comment_row_out_created_at st b y hy]
      simpa [created_asc] using hab
    · exact List.Perm.filterMap _ (List.mergeSort_perm _ _)
    · by_cases ht : token == ""
      · have ht' : token = "" := by simpa using ht
        simp [ht, ht']
      · have ht' : ¬ token = "" := by simpa using ht
        cases hu : get_user_by_token st token with
        | none => simp [ht, hu]
        | some u => simp [ht, ht', hu]

/-- Witness for C9: post 1 viewed with user 2's token (user 2 has liked
it). -/
theorem C9_witness :
    ∃ d, get_post ex_st 1 "tokB" = .ok d ∧
      d.comments.Pairwise (fun a b => a.created_at ≤ b.created_at) ∧
      d.comments.Perm
        ((ex_st.comments.filter (fun c => c.post_id == 1)).filterMap (comment_row_out ex_st)) ∧
      (d.liked_by_me = true ↔
        ("tokB" : String) ≠ "" ∧ ∃ u, get_user_by_token ex_st "tokB" = some u ∧
          ex_st.likes.any (fun l => l.post_id == 1 && l.user_id == u.id) = true) :=
  (C9_get_post_detail ex_st 1 "tokB").2 post1 alice (by decide) (by decide)

end Social
